import Mathlib

/-!
Verification of the DataWipe (ZeroTrace) repository against its
natural-language specification.  The browser frontend (React/JSX) is
embedded shallowly: each JSX helper that the claims touch becomes a pure
Lean function over explicit state.  The wipe engine and the certificate
subsystem are not part of the shown sources; where a claim is decided by
them they are modelled from the spec (see the doc comments starting
"Modelled from the spec").
-/

/-! ## Device model (frontend/web/src/components/DeviceList.jsx) -/

/-- A device row as the frontend handles it: the demo device is built with
fields name, path, type and size (a decimal string of bytes). -/
structure Device where
  name : String
  path : String
  type : String
  size : String
deriving DecidableEq, Repr

/-- The fabricated demo device from DeviceList.jsx `loadDevices`:
`{ name: 'Primary Drive', path: 'demo://drive0', type: 'ssd', size: String(256*1024*1024*1024) }`. -/
def demoDevice : Device :=
  { name := "Primary Drive"
    path := "demo://drive0"
    type := "ssd"
    size := toString (256 * 1024 * 1024 * 1024 : Nat) }

/-- The JSON body of a response from `GET /api/drives`, as far as
`loadDevices` inspects it: an `ok` flag, an optional `drives` array and an
optional `error` string.  `none` for the whole body models a response whose
body failed to parse as JSON. -/
structure DrivesResponse where
  ok : Bool
  drives : Option (List Device)
  error : Option String
deriving DecidableEq, Repr

/-- Shallow embedding of the branch structure of `loadDevices` in
DeviceList.jsx (lines 16-58): given whether the HTTP response was ok and the
parsed body, it yields either the device list to display or the error
message to display.  Mirrors the JS cascade
`data && data.ok` / `data && data.drives && Array.isArray(data.drives)` /
`response.ok` / error, with the empty-list fallback to the demo device. -/
def loadDevicesView (responseOk : Bool) (data : Option DrivesResponse) :
    Except String (List Device) :=
  match data with
  | some d =>
    if d.ok then
      let list := d.drives.getD []
      if list.isEmpty then .ok [demoDevice] else .ok list
    else
      match d.drives with
      | some list => if list.isEmpty then .ok [demoDevice] else .ok list
      | none =>
        if responseOk then .ok [demoDevice]
        else .error (d.error.getD "Failed to load devices")
  | none =>
    if responseOk then .ok [demoDevice]
    else .error "Failed to load devices"

/-- Shallow embedding of `handleDeviceSelect` in DeviceList.jsx (lines
60-68): if some selected entry has the clicked device's path, drop every
entry with that path; otherwise append the device. -/
def handleDeviceSelect (device : Device) (prev : List Device) : List Device :=
  if prev.any (fun d => d.path == device.path) then
    prev.filter (fun d => d.path != device.path)
  else
    prev ++ [device]

/-- Claim C9: an enumeration success with an empty (or missing) drive list
presents exactly the one fabricated demo device, whose fields are name
"Primary Drive", path "demo://drive0", type "ssd" and size 256 GiB. -/
theorem loadDevices_empty_gives_demo (responseOk : Bool) (d : DrivesResponse)
    (hok : d.ok = true) (hdr : d.drives = some [] ∨ d.drives = none) :
    loadDevicesView responseOk (some d) = .ok [demoDevice] ∧
    loadDevicesView true none = .ok [demoDevice] ∧
    demoDevice = { name := "Primary Drive", path := "demo://drive0",
                   type := "ssd", size := toString (256 * 1024 * 1024 * 1024 : Nat) } := by
  refine ⟨?_, rfl, rfl⟩
  rcases hdr with h | h <;> simp [loadDevicesView, hok, h]

/-- Witness for C9 at a concrete successful-but-empty response. -/
theorem loadDevices_empty_gives_demo_witness :
    loadDevicesView true (some { ok := true, drives := some [], error := none })
      = .ok [demoDevice] :=
  (loadDevices_empty_gives_demo true { ok := true, drives := some [], error := none }
    rfl (Or.inl rfl)).1

/-- Counterexample to claim C10 as stated: with two selected devices, double
toggling the first does not return the selection to its original state (the
entry is re-appended at the end, so the order changes). -/
theorem deviceSelect_double_toggle_not_involution :
    handleDeviceSelect { name := "A", path := "p1", type := "ssd", size := "1" }
      (handleDeviceSelect { name := "A", path := "p1", type := "ssd", size := "1" }
        [{ name := "A", path := "p1", type := "ssd", size := "1" },
         { name := "B", path := "p2", type := "hdd", size := "2" }])
    ≠ [{ name := "A", path := "p1", type := "ssd", size := "1" },
       { name := "B", path := "p2", type := "hdd", size := "2" }] := by
  decide

/-- Amended claim C10: selection is keyed by path; toggling a device that is
not currently selected twice returns exactly the original selection, and a
toggle never introduces two entries with the same path (pairwise-distinct
paths are preserved). -/
theorem deviceSelect_amended (device : Device) (prev : List Device)
    (hnew : prev.all (fun d => d.path != device.path) = true) :
    handleDeviceSelect device (handleDeviceSelect device prev) = prev ∧
    ∀ sel : List Device, (sel.map Device.path).Nodup →
      ((handleDeviceSelect device sel).map Device.path).Nodup := by
  constructor
  · have hany : prev.any (fun d => d.path == device.path) = false := by
      rw [List.any_eq_false]
      intro d hd
      have := (List.all_eq_true.mp hnew) d hd
      simpa using this
    have h1 : handleDeviceSelect device prev = prev ++ [device] := by
      simp [handleDeviceSelect, hany]
    rw [h1]
    have hany2 : (prev ++ [device]).any (fun d => d.path == device.path) = true := by
      simp [List.any_append]
    simp only [handleDeviceSelect, hany2, if_pos rfl, List.filter_append]
    have hfilter : prev.filter (fun d => d.path != device.path) = prev := by
      apply List.filter_eq_self.mpr
      intro d hd
      have := (List.all_eq_true.mp hnew) d hd
      simpa using this
    simp [hfilter]
  · intro sel hnd
    unfold handleDeviceSelect
    by_cases hmem : sel.any (fun d => d.path == device.path) = true
    · rw [if_pos hmem]
      have hsub : List.Sublist
          ((sel.filter (fun d => d.path != device.path)).map Device.path)
          (sel.map Device.path) :=
        (List.filter_sublist sel).map Device.path
      exact hnd.sublist hsub
    · rw [if_neg hmem]
      rw [List.map_append]
      have hnotmem : device.path ∉ sel.map Device.path := by
        intro hin
        rcases List.mem_map.mp hin with ⟨d, hd, hpath⟩
        have : sel.any (fun x => x.path == device.path) = true :=
          List.any_eq_true.mpr ⟨d, hd, by simp [hpath]⟩
        exact hmem this
      simpa using List.nodup_append.mpr ⟨hnd, List.nodup_singleton _, by
        simpa using hnotmem⟩

/-- Witness for the amended C10 at a concrete unselected device. -/
theorem deviceSelect_amended_witness :
    handleDeviceSelect { name := "A", path := "p1", type := "ssd", size := "1" }
      (handleDeviceSelect { name := "A", path := "p1", type := "ssd", size := "1" }
        [{ name := "B", path := "p2", type := "hdd", size := "2" }])
    = [{ name := "B", path := "p2", type := "hdd", size := "2" }] :=
  (deviceSelect_amended _ _ (by decide)).1

/-! ## Session rows and their presentation (frontend/web/src/components/Reports.jsx) -/

/-- A wipe-session row as the Reports table consumes it (the fields read in
Reports.jsx): id, method, passes, status, timestamps, artifact paths and an
error message.  Optional fields model JS null/undefined. -/
structure SessionRow where
  id : String
  method : String
  passes : Nat
  status : String
  started_at : Option String
  duration_seconds : Option Nat
  report_path : Option String
  signature_path : Option String
  error_message : Option String
deriving DecidableEq, Repr

/-- Shallow embedding of the condition guarding the certificate/report
download buttons in Reports.jsx lines 205-231:
`session.status === 'completed' && session.report_path && (...)`. -/
def showsDownloadActions (s : SessionRow) : Bool :=
  s.status == "completed" && s.report_path.isSome

/-- Shallow embedding of the condition showing the failure message instead of
any artifact in Reports.jsx lines 232-236: `session.status === 'failed'`. -/
def showsErrorInsteadOfArtifacts (s : SessionRow) : Bool :=
  s.status == "failed"

/-- Modelled from the spec: the Certificate Builder is not in the shown
sources (backend/services and utils/report.py are absent); §4.5 states it is
"Never invoked for a failed session — failures produce an error record, not a
certificate", and §7 that "A `failed` session never produces a Certificate".
The model maps a session status to whether a certificate artifact is
produced. -/
def producesCertificateArtifact (status : String) : Bool :=
  status == "completed"

/-- Claim C2: a failed session has no certificate artifact and is offered no
certificate/report download; downloads are offered only for completed
sessions. -/
theorem failed_session_no_certificate (s : SessionRow) :
    (s.status = "failed" →
      producesCertificateArtifact s.status = false ∧
      showsDownloadActions s = false) ∧
    (showsDownloadActions s = true → s.status = "completed") := by
  constructor
  · intro h
    simp [producesCertificateArtifact, showsDownloadActions, h]
  · intro h
    have := (Bool.and_eq_true _ _).mp h
    exact eq_of_beq this.1

/-- Witness for C2 at a concrete failed session row. -/
theorem failed_session_no_certificate_witness :
    producesCertificateArtifact "failed" = false ∧
    showsDownloadActions
      { id := "7", method := "nist_800_88", passes := 1, status := "failed",
        started_at := none, duration_seconds := none, report_path := none,
        signature_path := none, error_message := some "Device removed" } = false :=
  (failed_session_no_certificate
    { id := "7", method := "nist_800_88", passes := 1, status := "failed",
      started_at := none, duration_seconds := none, report_path := none,
      signature_path := none, error_message := some "Device removed" }).1 rfl

/-- Shallow embedding of `getStatusColor` in Reports.jsx lines 95-106: the
switch over a session's status when presenting it. -/
def getStatusColor (status : String) : String :=
  if status == "completed" then "success"
  else if status == "failed" then "error"
  else if status == "in_progress" then "warning"
  else "info"

/-- The five status values of the spec's Wipe Session data model. -/
def specStatuses : List String :=
  ["queued", "running", "verifying", "completed", "failed"]

/-- Counterexample to claim C7 as stated: the presentation layer
distinguishes the status value "in_progress" (it gets its own colour,
different from the default shared by queued/running/verifying), and
"in_progress" is not one of the spec's five status values. -/
theorem status_in_progress_distinguished :
    getStatusColor "in_progress" ≠ getStatusColor "queued" ∧
    "in_progress" ∉ specStatuses := by
  constructor
  · decide
  · decide

/-- Amended claim C7: the statuses the presentation distinguishes are exactly
completed, failed and in_progress; every other status value (including the
spec's queued, running and verifying) is rendered with the generic default,
and the distinguished value in_progress lies outside the spec's five-value
status set. -/
theorem status_distinguished_amended (s : String)
    (h : getStatusColor s ≠ "info") :
    s ∈ ["completed", "failed", "in_progress"] ∧
    "in_progress" ∉ specStatuses ∧
    "completed" ∈ specStatuses ∧ "failed" ∈ specStatuses := by
  refine ⟨?_, by decide, by decide, by decide⟩
  unfold getStatusColor at h
  by_cases h1 : s == "completed"
  · simp [eq_of_beq h1]
  · rw [if_neg (by simpa using h1)] at h
    by_cases h2 : s == "failed"
    · simp [eq_of_beq h2]
    · rw [if_neg (by simpa using h2)] at h
      by_cases h3 : s == "in_progress"
      · simp [eq_of_beq h3]
      · rw [if_neg (by simpa using h3)] at h
        exact absurd rfl h

/-- Witness for the amended C7 at the concrete status "in_progress". -/
theorem status_distinguished_amended_witness :
    "in_progress" ∈ ["completed", "failed", "in_progress"] ∧
    "in_progress" ∉ specStatuses ∧
    "completed" ∈ specStatuses ∧ "failed" ∈ specStatuses :=
  status_distinguished_amended "in_progress" (by decide)

/-! ## Progress presentation (frontend/web/src/components/WipeProgress.jsx) -/

/-- Shallow embedding of the rendered progress-bar width in WipeProgress.jsx
line 78: `width: Math.min(progress, 100)%`.  Progress values are JS numbers,
modelled as rationals. -/
def barWidthPercent (progress : ℚ) : ℚ :=
  min progress 100

/-- Shallow embedding of the displayed percentage in WipeProgress.jsx line
82: `Math.round(progress)%`.  JS `Math.round` is ⌊x + 1/2⌋, which is
Mathlib's `round`. -/
def displayedPercent (progress : ℚ) : ℤ :=
  round progress

/-- Shallow embedding of the back/cancel control in WipeProgress.jsx lines
141-153: while there is no error and progress is below 100 the button is
rendered disabled; it becomes an enabled button exactly when an error is set
or progress reached 100. -/
def backControlEnabled (error : Bool) (progress : ℚ) : Bool :=
  error || decide (100 ≤ progress)

/-- Counterexample to claim C4 as stated: a snapshot progress value of 150 is
displayed as 150%, outside [0,100] — `Math.round` does not clamp; likewise a
negative value of -5 yields a rendered bar width of -5%, since `Math.min`
clamps only from above. -/
theorem displayedPercent_not_clamped :
    displayedPercent 150 = 150 ∧ ¬ displayedPercent 150 ≤ 100 ∧
    barWidthPercent (-5) = -5 := by
  have h : displayedPercent 150 = 150 := by
    unfold displayedPercent
    norm_num
  refine ⟨h, by rw [h]; norm_num, ?_⟩
  unfold barWidthPercent
  norm_num

/-- Amended claim C4: the rendered bar width is clamped from above to 100 but
not from below, and the displayed percentage is the rounding of the raw
snapshot value with no clamping at all; consequently both shown values lie in
[0,100] whenever the snapshot value itself lies in [0,100]. -/
theorem progress_display_amended (p : ℚ) (h0 : 0 ≤ p) (h100 : p ≤ 100) :
    barWidthPercent p ≤ 100 ∧ 0 ≤ barWidthPercent p ∧
    0 ≤ displayedPercent p ∧ displayedPercent p ≤ 100 := by
  refine ⟨min_le_right _ _, le_min h0 (by norm_num), ?_, ?_⟩
  · have : (0 : ℤ) = round (0 : ℚ) := by norm_num
    rw [this]
    unfold displayedPercent
    rw [round_eq, round_eq]
    exact Int.floor_mono (by linarith)
  · have h1 : (100 : ℤ) = round (100 : ℚ) := by norm_num
    rw [h1]
    unfold displayedPercent
    rw [round_eq, round_eq]
    exact Int.floor_mono (by linarith)

/-- Witness for the amended C4 at the concrete snapshot value 50. -/
theorem progress_display_amended_witness :
    barWidthPercent 50 ≤ 100 ∧ 0 ≤ barWidthPercent 50 ∧
    0 ≤ displayedPercent 50 ∧ displayedPercent 50 ≤ 100 :=
  progress_display_amended 50 (by norm_num) (by norm_num)

/-- Claim C5: while a session is running (progress strictly below 100 and no
error) the back/cancel control is disabled, so the wipe runs to a terminal
state. -/
theorem running_session_cannot_cancel (p : ℚ) (h : p < 100) :
    backControlEnabled false p = false := by
  simp [backControlEnabled, not_le.mpr h]

/-- Witness for C5 at the concrete mid-wipe progress value 42. -/
theorem running_session_cannot_cancel_witness :
    backControlEnabled false 42 = false :=
  running_session_cannot_cancel 42 (by norm_num)

/-! ## Wipe method catalogue and pass count (src/unnamed/part_000 WipeOptions) -/

/-- The display record `getMethodInfo` builds for a wipe method: name,
description, recommended flag and time estimate. -/
structure MethodInfo where
  name : String
  description : String
  recommended : Bool
  time : String
deriving DecidableEq, Repr

/-- The static `info` object inside `getMethodInfo` (WipeOptions lines
22-71), as an association list in source order. -/
def methodCatalogue : List (String × MethodInfo) :=
  [("nist_800_88",
    { name := "NIST 800-88", description := "Industry standard: Clear + Verify + Purge",
      recommended := true, time := "Medium" }),
   ("dod_5220_22_m",
    { name := "DoD 5220.22-M", description := "Military standard: 3-pass overwrite",
      recommended := true, time := "Medium" }),
   ("gutmann",
    { name := "Gutmann", description := "Maximum security: 35-pass overwrite",
      recommended := false, time := "Very Long" }),
   ("crypto_erase",
    { name := "Cryptographic Erase", description := "Preferred for SSDs: Key destruction",
      recommended := true, time := "Fast" }),
   ("ata_sanitize",
    { name := "ATA Sanitize", description := "Hardware-level secure erase",
      recommended := true, time := "Fast" }),
   ("nvme_format",
    { name := "NVMe Format", description := "NVMe crypto erase command",
      recommended := true, time := "Fast" }),
   ("single_pass",
    { name := "Single Pass", description := "Quick wipe with zeros",
      recommended := false, time := "Fast" }),
   ("three_pass",
    { name := "Three Pass", description := "Zeros, ones, and random data",
      recommended := false, time := "Medium" })]

/-- Shallow embedding of `getMethodInfo` (WipeOptions lines 21-73):
`return info[method] || { name: method, description: 'Unknown method',
recommended: false, time: 'Unknown' }`. -/
def getMethodInfo (method : String) : MethodInfo :=
  match methodCatalogue.lookup method with
  | some i => i
  | none =>
    { name := method, description := "Unknown method",
      recommended := false, time := "Unknown" }

/-- Counterexample to claim C6 as stated: the identifier "vendor_wipe" is not
in the catalogue, yet resolving it yields a substitute default descriptor
(name echoing the identifier, description "Unknown method"), not a distinct
NotFound error — the lookup is total into `MethodInfo` and has no error
variant at all. -/
theorem unknown_method_gets_default :
    methodCatalogue.lookup "vendor_wipe" = none ∧
    getMethodInfo "vendor_wipe" =
      { name := "vendor_wipe", description := "Unknown method",
        recommended := false, time := "Unknown" } := by
  constructor
  · decide
  · decide

/-- Amended claim C6: for every identifier absent from the method catalogue,
resolution returns the fallback descriptor carrying the raw identifier as
name and the description "Unknown method" — a substitute default, not a
NotFound error. -/
theorem unknown_method_fallback (m : String)
    (h : methodCatalogue.lookup m = none) :
    getMethodInfo m =
      { name := m, description := "Unknown method",
        recommended := false, time := "Unknown" } := by
  unfold getMethodInfo
  rw [h]

/-- Witness for the amended C6 at the concrete unknown identifier. -/
theorem unknown_method_fallback_witness :
    getMethodInfo "vendor_wipe" =
      { name := "vendor_wipe", description := "Unknown method",
        recommended := false, time := "Unknown" } :=
  unknown_method_fallback "vendor_wipe" (by decide)

/-- Shallow embedding of the guard rendering the pass-count select
(WipeOptions line 139): `['dod_5220_22_m', 'three_pass', 'gutmann'].includes(selectedMethod)`. -/
def passSelectRendered (method : String) : Bool :=
  ["dod_5220_22_m", "three_pass", "gutmann"].contains method

/-- Shallow embedding of the options offered by the pass-count select
(WipeOptions lines 147-149): 1 Pass, 3 Passes, and 35 Passes only for
gutmann. -/
def passOptions (method : String) : List Nat :=
  [1, 3] ++ (if method == "gutmann" then [35] else [])

/-- The reachable values of the `passes` state in WipeOptions: it is
initialised to 1 (`useState(1)`, and `wipePasses` in App.jsx also starts at
1) and is only ever set from the rendered select's options. -/
inductive ReachablePasses : Nat → Prop
  | init : ReachablePasses 1
  | select (m : String) (p : Nat) :
      passSelectRendered m = true → p ∈ passOptions m → ReachablePasses p

/-- Claim C8: every pass count the frontend can submit is an integer ≥ 1;
the control defaults to 1 and only ever offers 1, 3 and 35. -/
theorem passes_at_least_one (p : Nat) (h : ReachablePasses p) :
    1 ≤ p ∧ p ∈ [1, 3, 35] := by
  cases h with
  | init => exact ⟨le_refl 1, by decide⟩
  | select m q hr hmem =>
    unfold passOptions at hmem
    by_cases hg : m == "gutmann"
    · rw [if_pos hg] at hmem
      simp at hmem
      rcases hmem with rfl | rfl | rfl <;> exact ⟨by norm_num, by decide⟩
    · rw [if_neg hg] at hmem
      simp at hmem
      rcases hmem with rfl | rfl <;> exact ⟨by norm_num, by decide⟩

/-- Witness for C8 at a concrete selection of 3 passes for three_pass. -/
theorem passes_at_least_one_witness :
    1 ≤ 3 ∧ 3 ∈ [1, 3, 35] :=
  passes_at_least_one 3 (ReachablePasses.select "three_pass" 3 (by decide) (by decide))

/-! ## Session lifecycle and progress (modelled: the engine is not in the shown sources) -/

/-- Modelled from the spec: the Session State Machine's status set, §3 Wipe
Session — status ∈ {queued, running, verifying, completed, failed}.  The
backend component (services/wipe_engine.py and secure_wipe.py in the README's
tree) is absent from the shown sources. -/
inductive Status
  | queued
  | running
  | verifying
  | completed
  | failed
deriving DecidableEq, Repr

/-- Modelled from the spec: the observable state of one wipe session — its
status together with the progress percentage the Progress Reporter exposes
(§4.4: clamped to [0,100], final percentage 100 on success). -/
structure SessState where
  status : Status
  percent : Nat
deriving DecidableEq, Repr

/-- Modelled from the spec: the transitions of the Session State Machine
(§4.3: queued → running → (verifying) → completed, or failure from a
non-terminal active state) together with the Progress Reporter updates
(§4.2/§4.4: `onProgress` delivers a monotonically increasing percentage,
only completion publishes the final 100). -/
inductive SessStep : SessState → SessState → Prop
  | start : SessStep ⟨Status.queued, 0⟩ ⟨Status.running, 0⟩
  | tick (p q : Nat) : p ≤ q → q < 100 →
      SessStep ⟨Status.running, p⟩ ⟨Status.running, q⟩
  | beginVerify (p : Nat) : SessStep ⟨Status.running, p⟩ ⟨Status.verifying, p⟩
  | completeFromRunning (p : Nat) :
      SessStep ⟨Status.running, p⟩ ⟨Status.completed, 100⟩
  | completeFromVerifying (p : Nat) :
      SessStep ⟨Status.verifying, p⟩ ⟨Status.completed, 100⟩
  | failFromRunning (p : Nat) : SessStep ⟨Status.running, p⟩ ⟨Status.failed, p⟩
  | failFromVerifying (p : Nat) :
      SessStep ⟨Status.verifying, p⟩ ⟨Status.failed, p⟩

/-- Modelled from the spec: the states a session can be in over its lifetime,
starting from its creation in `queued` with zero progress. -/
def SessReachable (s : SessState) : Prop :=
  Relation.ReflTransGen SessStep ⟨Status.queued, 0⟩ s

lemma sess_invariant (s : SessState) (h : SessReachable s) :
    s.percent ≤ 100 ∧ (s.percent = 100 ↔ s.status = Status.completed) := by
  induction h with
  | refl => exact ⟨by norm_num, by simp⟩
  | tail _ hstep ih =>
    cases hstep with
    | start => exact ⟨by norm_num, by simp⟩
    | tick p q hpq hq =>
      refine ⟨show q ≤ 100 by omega, ?_⟩
      simp only [SessState.percent, SessState.status]
      constructor
      · intro h100; omega
      · intro hc; exact absurd hc (by simp)
    | beginVerify p =>
      obtain ⟨h1, h2⟩ := ih
      refine ⟨h1, ?_⟩
      simp only [SessState.percent, SessState.status] at h1 h2 ⊢
      constructor
      · intro h100
        exact absurd ((h2.mp h100)) (by simp)
      · intro hc; exact absurd hc (by simp)
    | completeFromRunning p => exact ⟨le_refl 100, by simp⟩
    | completeFromVerifying p => exact ⟨le_refl 100, by simp⟩
    | failFromRunning p =>
      obtain ⟨h1, h2⟩ := ih
      refine ⟨h1, ?_⟩
      simp only [SessState.percent, SessState.status] at h1 h2 ⊢
      constructor
      · intro h100
        exact absurd ((h2.mp h100)) (by simp)
      · intro hc; exact absurd hc (by simp)
    | failFromVerifying p =>
      obtain ⟨h1, h2⟩ := ih
      refine ⟨h1, ?_⟩
      simp only [SessState.percent, SessState.status] at h1 h2 ⊢
      constructor
      · intro h100
        exact absurd ((h2.mp h100)) (by simp)
      · intro hc; exact absurd hc (by simp)

/-- Claim C3: over a session's lifetime the progress percentage never
exceeds 100, equals 100 exactly when the session is completed (so a failed
session never reports 100, and any observation of at least 100 implies
completion), and every further step keeps it non-decreasing. -/
theorem session_progress_lifecycle (s : SessState) (h : SessReachable s) :
    s.percent ≤ 100 ∧
    (s.percent = 100 ↔ s.status = Status.completed) ∧
    (100 ≤ s.percent → s.status = Status.completed) ∧
    ∀ t, SessStep s t → s.percent ≤ t.percent := by
  obtain ⟨h1, h2⟩ := sess_invariant s h
  refine ⟨h1, h2, fun hge => h2.mp (le_antisymm h1 hge), fun t hstep => ?_⟩
  cases hstep with
  | start => exact le_refl 0
  | tick p q hpq hq => exact hpq
  | beginVerify p => exact le_refl p
  | completeFromRunning p =>
    simpa using h1
  | completeFromVerifying p =>
    simpa using h1
  | failFromRunning p => exact le_refl p
  | failFromVerifying p => exact le_refl p

/-- Witness for C3 at a concrete completed trace
queued 0 → running 0 → running 40 → completed 100. -/
theorem session_progress_lifecycle_witness :
    (SessState.mk Status.completed 100).percent ≤ 100 ∧
    ((SessState.mk Status.completed 100).percent = 100 ↔
      (SessState.mk Status.completed 100).status = Status.completed) ∧
    (100 ≤ (SessState.mk Status.completed 100).percent →
      (SessState.mk Status.completed 100).status = Status.completed) ∧
    ∀ t, SessStep (SessState.mk Status.completed 100) t →
      (SessState.mk Status.completed 100).percent ≤ t.percent :=
  session_progress_lifecycle _
    (Relation.ReflTransGen.head SessStep.start
      (Relation.ReflTransGen.head (SessStep.tick 0 40 (by norm_num) (by norm_num))
        (Relation.ReflTransGen.head (SessStep.completeFromRunning 40)
          Relation.ReflTransGen.refl)))

/-! ## Certificate, canonical bytes, signing (modelled: the signer is not in the shown sources) -/

/-- Modelled from the spec: the Device Descriptor recorded in a certificate
(§3: path/identifier, medium type, reported size in bytes, model, serial). -/
structure DeviceDescriptor where
  path : String
  model : String
  serial : String
  mediumType : String
  sizeBytes : Nat
deriving DecidableEq, Repr

/-- Modelled from the spec: the wipe-operation section of a certificate
(§6: method, passes, timestamps, duration, status). -/
structure WipeOperation where
  method : String
  passes : Nat
  startedAt : String
  completedAt : String
  durationSeconds : Nat
  status : String
deriving DecidableEq, Repr

/-- Modelled from the spec: the Verification Record (§3: content hashes
before and after the wipe and the derived `data_destroyed` boolean). -/
structure VerificationRecord where
  sha256Before : String
  sha256After : String
  dataDestroyed : Bool
deriving DecidableEq, Repr

/-- Modelled from the spec: a canonical, self-contained Certificate (§3)
combining certificate metadata, the device descriptor, the wipe-operation
summary, the verification record and the compliance standards met. -/
structure Certificate where
  id : String
  issuedAt : String
  device : DeviceDescriptor
  operation : WipeOperation
  verification : VerificationRecord
  standardsMet : List String
deriving DecidableEq, Repr

/-- One field of the canonical serialization: a string, a number or a
boolean. -/
inductive CertField
  | str (s : String)
  | num (n : Nat)
  | flag (b : Bool)
deriving DecidableEq, Repr

/-- Modelled from the spec: canonicalization (§4.6, glossary) — a single,
fixed, order-stable serialization of every certificate field, the exact
input to signing and to verification. -/
def canonicalBytes (c : Certificate) : List CertField :=
  [CertField.str c.id, CertField.str c.issuedAt,
   CertField.str c.device.path, CertField.str c.device.model,
   CertField.str c.device.serial, CertField.str c.device.mediumType,
   CertField.num c.device.sizeBytes,
   CertField.str c.operation.method, CertField.num c.operation.passes,
   CertField.str c.operation.startedAt, CertField.str c.operation.completedAt,
   CertField.num c.operation.durationSeconds, CertField.str c.operation.status,
   CertField.str c.verification.sha256Before,
   CertField.str c.verification.sha256After,
   CertField.flag c.verification.dataDestroyed]
  ++ c.standardsMet.map CertField.str

/-- Modelled from the spec: the Signature Block attached to a certificate
(§3: algorithm name, signature bytes, public-key fingerprint).  In this
symbolic model of a perfect signature scheme the signature bytes determine
exactly the canonical bytes that were signed under the key. -/
structure SignatureBlock where
  algorithm : String
  signedBytes : List CertField
  keyFingerprint : Nat
deriving DecidableEq, Repr

/-- Modelled from the spec: `sign(certificateCanonicalBytes) -> SignatureBlock`
(§4.6), a signature over exactly the canonical bytes under the signing key. -/
def sign (key : Nat) (bytes : List CertField) : SignatureBlock :=
  { algorithm := "SHA256-RSA", signedBytes := bytes, keyFingerprint := key }

/-- Modelled from the spec: `verify(certificate, signatureBlock) -> valid|invalid`
(§4.6) — the presented certificate is canonicalized again and the signature
block must be exactly a signature over those canonical bytes under the
corresponding key. -/
def verify (key : Nat) (c : Certificate) (sb : SignatureBlock) : Bool :=
  sb == sign key (canonicalBytes c)

/-- Modelled from the spec: `build(session, verification) -> Certificate`
(§4.5), a pure assembly of the canonical result record from the terminal
session data, the verification record and the standards the method meets. -/
def build (cid issuedAt : String) (device : DeviceDescriptor)
    (operation : WipeOperation) (verification : VerificationRecord)
    (standards : List String) : Certificate :=
  { id := cid, issuedAt := issuedAt, device := device,
    operation := operation, verification := verification,
    standardsMet := standards }

lemma certFieldStr_injective : Function.Injective CertField.str := by
  intro a b h
  cases h
  rfl

lemma canonicalBytes_injective : Function.Injective canonicalBytes := by
  rintro ⟨ia, ta, ⟨pa, ma, sa, ya, za⟩, ⟨oma, opa, osa, oca, oda, ota⟩,
          ⟨vba, vaa, vda⟩, sta⟩
         ⟨ib, tb, ⟨pb, mb, sb, yb, zb⟩, ⟨omb, opb, osb, ocb, odb, otb⟩,
          ⟨vbb, vab, vdb⟩, stb⟩ h
  simp only [canonicalBytes, List.cons_append, List.nil_append,
    List.cons.injEq, CertField.str.injEq, CertField.num.injEq,
    CertField.flag.injEq] at h
  obtain ⟨h1, h2, h3, h4, h5, h6, h7, h8, h9, h10, h11, h12, h13, h14, h15,
          h16, h17⟩ := h
  have hst : sta = stb := List.map_injective_iff.mpr certFieldStr_injective h17
  subst h1 h2 h3 h4 h5 h6 h7 h8 h9 h10 h11 h12 h13 h14 h15 h16 hst
  rfl

/-- Claim C1: a certificate produced by `build` verifies against the
signature produced by `sign` over its canonical bytes, and any certificate
differing from it in any field (device serial, timestamp, hash or any
other) fails verification against that signature. -/
theorem sign_verify_roundtrip_tamper (key : Nat) (cid issuedAt : String)
    (device : DeviceDescriptor) (operation : WipeOperation)
    (verification : VerificationRecord) (standards : List String)
    (c' : Certificate) :
    verify key (build cid issuedAt device operation verification standards)
      (sign key (canonicalBytes
        (build cid issuedAt device operation verification standards))) = true ∧
    (c' ≠ build cid issuedAt device operation verification standards →
      verify key c'
        (sign key (canonicalBytes
          (build cid issuedAt device operation verification standards))) = false) := by
  constructor
  · unfold verify
    exact beq_self_eq_true _
  · intro hne
    unfold verify
    rw [beq_eq_false_iff_ne]
    intro hsig
    apply hne
    apply canonicalBytes_injective
    have h2 := congrArg SignatureBlock.signedBytes hsig
    simpa [sign] using h2.symm

/-- A fixed example certificate for the C1 witness, matching the spec's
end-to-end scenario (§8): demo device, 3-pass pattern overwrite. -/
def exampleBuiltCertificate : Certificate :=
  build "cert-1" "2025-01-01T00:00:00Z"
    { path := "demo://drive0", model := "Demo", serial := "SN123",
      mediumType := "ssd", sizeBytes := 274877906944 }
    { method := "three_pass", passes := 3,
      startedAt := "2025-01-01T00:00:00Z", completedAt := "2025-01-01T00:10:00Z",
      durationSeconds := 600, status := "completed" }
    { sha256Before := "aa", sha256After := "bb", dataDestroyed := true }
    ["NIST 800-88", "DoD 5220.22-M"]

/-- The example certificate with its device serial flipped, for the C1
witness. -/
def exampleTamperedCertificate : Certificate :=
  { exampleBuiltCertificate with
    device := { exampleBuiltCertificate.device with serial := "SN124" } }

/-- Witness for C1: at the concrete example certificate the signature
verifies, and after flipping the device serial it does not. -/
theorem sign_verify_roundtrip_tamper_witness :
    verify 7 exampleBuiltCertificate
      (sign 7 (canonicalBytes exampleBuiltCertificate)) = true ∧
    verify 7 exampleTamperedCertificate
      (sign 7 (canonicalBytes exampleBuiltCertificate)) = false :=
  ⟨(sign_verify_roundtrip_tamper 7 "cert-1" "2025-01-01T00:00:00Z"
      { path := "demo://drive0", model := "Demo", serial := "SN123",
        mediumType := "ssd", sizeBytes := 274877906944 }
      { method := "three_pass", passes := 3,
        startedAt := "2025-01-01T00:00:00Z", completedAt := "2025-01-01T00:10:00Z",
        durationSeconds := 600, status := "completed" }
      { sha256Before := "aa", sha256After := "bb", dataDestroyed := true }
      ["NIST 800-88", "DoD 5220.22-M"] exampleTamperedCertificate).1,
   (sign_verify_roundtrip_tamper 7 "cert-1" "2025-01-01T00:00:00Z"
      { path := "demo://drive0", model := "Demo", serial := "SN123",
        mediumType := "ssd", sizeBytes := 274877906944 }
      { method := "three_pass", passes := 3,
        startedAt := "2025-01-01T00:00:00Z", completedAt := "2025-01-01T00:10:00Z",
        durationSeconds := 600, status := "completed" }
      { sha256Before := "aa", sha256After := "bb", dataDestroyed := true }
      ["NIST 800-88", "DoD 5220.22-M"] exampleTamperedCertificate).2
     (by decide)⟩
